import Mathlib

-- Shallow embedding of the bluetooth-tooling repository:
--   src/ble_scanner.py    (advertisement scan, RSSI filter, single-device detail mode)
--   src/disconnect_ble.py (bulk connect / enumerate / disconnect pass)
-- Python dictionaries are modelled as association lists with insertion-order
-- preserving update; Python exceptions as an explicit error type, where
-- KeyboardInterrupt is the one BaseException that an `except Exception`
-- clause does not catch; the asynchronous radio environment (which events
-- arrive, whether the radio stack raises, whether a connection attempt
-- succeeds) is an explicit environment parameter.

namespace BleTooling

-- ===== Data model (bleak advertisement and device objects) =====

structure AdvertisementData where
  rssi : Int
  local_name : Option String
  tx_power : Option Int
  service_uuids : List String
  manufacturer_data : List (Nat × List Nat)
  service_data : List (String × List Nat)
deriving Repr, DecidableEq

structure BLEDevice where
  address : String
  name : Option String
deriving Repr, DecidableEq

-- One advertisement event delivered to a detection callback: (device, advertisement_data).
abbrev AdvEvent := BLEDevice × AdvertisementData

-- Value stored by ble_scanner.py lines 99-104 for each discovered address.
structure DeviceRecord where
  device : BLEDevice
  rssi : Int
  name : String
  advertisement_data : AdvertisementData
deriving Repr, DecidableEq

-- Python dict keyed by address, as an insertion-ordered association list.
abbrev DiscoveredDevices := List (String × DeviceRecord)

-- Python `m[k] = v`: overwrite in place if the key exists (keeping its
-- position, as CPython dicts do), else append at the end.
def dictInsert {α : Type} (k : String) (v : α) : List (String × α) → List (String × α)
  | [] => [(k, v)]
  | p :: rest => if p.1 = k then (k, v) :: rest else p :: dictInsert k v rest

-- Python `m.get(k)` / `m[k]` lookup.
def dictGet {α : Type} : List (String × α) → String → Option α
  | [], _ => none
  | p :: rest, k => if p.1 = k then some p.2 else dictGet rest k

-- ===== Advertisement Collector (ble_scanner.py lines 90-110) =====

-- The record built in detection_callback (lines 99-104): the dict with keys
-- device, rssi, name (device.name or "Unknown") and advertisement_data.
def mkRecord (ev : AdvEvent) : DeviceRecord :=
  { device := ev.1
    rssi := ev.2.rssi
    name := ev.1.name.getD "Unknown"
    advertisement_data := ev.2 }

-- detection_callback (lines 97-104): full overwrite of the stored record.
def detection_callback (acc : DiscoveredDevices) (ev : AdvEvent) : DiscoveredDevices :=
  dictInsert ev.1.address (mkRecord ev) acc

-- The scan window folds the arriving events, in arrival order, into the dict.
def collect_events (events : List AdvEvent) : DiscoveredDevices :=
  events.foldl detection_callback []

-- ===== RSSI Filter & Reporter (ble_scanner.py lines 112-146) =====

-- Line 116: the dict comprehension keeping the entries whose rssi field is
-- strictly greater than dbm_max, in iteration order.
def filter_devices (discovered : DiscoveredDevices) (dbm_max : Int) : DiscoveredDevices :=
  discovered.filter (fun p => p.2.rssi > dbm_max)

-- The three report outcomes of scan_ble_devices after the scan window closes.
inductive ScanReport
  | noDevices
  | allFiltered (total : Nat) (dbm_max : Int)
  | found (devices : DiscoveredDevices)
deriving Repr, DecidableEq

-- Lines 112-122: empty dict reports "No BLE devices found."; a non-empty dict
-- whose filtered subset is empty reports the all-filtered message with the
-- total count; otherwise the filtered devices are listed.
def scan_report (discovered : DiscoveredDevices) (dbm_max : Int) : ScanReport :=
  if discovered.isEmpty then .noDevices
  else
    let filtered := filter_devices discovered dbm_max
    if filtered.isEmpty then .allFiltered discovered.length dbm_max
    else .found filtered

-- The exact first line printed for each outcome (lines 113, 119, 122).
def report_message : ScanReport → String
  | .noDevices => "No BLE devices found."
  | .allFiltered total dbm_max =>
      "No BLE devices found with RSSI > " ++ toString dbm_max ++
        " dBm (found " ++ toString total ++ " total, all filtered out)."
  | .found devices => "Found " ++ toString devices.length ++ " device(s):"

-- The device list actually rendered by a report (empty for both empty cases).
def reportedDevices : Option ScanReport → DiscoveredDevices
  | some (.found l) => l
  | _ => []

-- ===== Python exceptions and observable traces =====

-- KeyboardInterrupt derives from BaseException, not Exception, so an
-- `except Exception` clause lets it propagate.
inductive PyErr
  | keyboardInterrupt
  | exception (msg : String)
deriving Repr, DecidableEq

def catchesException : PyErr → Bool
  | .keyboardInterrupt => false
  | .exception _ => true

-- Observable radio/connection actions, in program order.
inductive TraceEv
  | scanStart
  | sleep (seconds : Int)
  | scanStop
  | clientConnect (address : String)
  | clientDisconnect (address : String)
deriving Repr, DecidableEq

-- Sleep durations appearing in a trace.
def sleepsOf (tr : List TraceEv) : List Int :=
  tr.filterMap (fun ev => match ev with | .sleep s => some s | _ => none)

-- Connections still open after a trace: clientConnect pushes the address,
-- clientDisconnect removes it.
def openStep (acc : List String) : TraceEv → List String
  | .clientConnect a => a :: acc
  | .clientDisconnect a => acc.erase a
  | _ => acc

def openConnections (tr : List TraceEv) : List String :=
  tr.foldl openStep []

-- ===== scan_ble_devices (ble_scanner.py lines 90-146) =====

structure BulkRun where
  trace : List TraceEv
  result : Except PyErr Unit
  report : Option ScanReport
deriving Repr

-- scanOutcome models scanner.start / sleep(scan_time) / scanner.stop as a
-- whole: either the radio stack raises, or the window completes having
-- delivered the listed advertisement events. The function has no try/except,
-- so a raise propagates to the caller.
def scan_ble_devices (scan_time : Int) (dbm_max : Int)
    (scanOutcome : Except PyErr (List AdvEvent)) : BulkRun :=
  match scanOutcome with
  | .error e => { trace := [], result := .error e, report := none }
  | .ok events =>
      { trace := [.scanStart, .sleep scan_time, .scanStop]
        result := .ok ()
        report := some (scan_report (collect_events events) dbm_max) }

-- ===== get_device_info (ble_scanner.py lines 6-87) =====

-- Python str.lower / str.upper restricted to ASCII letters, which is the
-- relevant alphabet for addresses; Char.toLower / Char.toUpper implement
-- exactly that case mapping.
def py_lower (s : String) : String := ⟨s.data.map Char.toLower⟩

def py_upper (s : String) : String := ⟨s.data.map Char.toUpper⟩

-- Lines 16-20: the detection callback keeps overwriting device_found with any
-- event whose address matches case-insensitively; the last match wins.
def locate_device (address : String) (events : List AdvEvent) : Option AdvEvent :=
  events.foldl
    (fun acc ev => if py_lower ev.1.address = py_lower address then some ev else acc)
    none

structure DetailEnv where
  scan : Except PyErr (List AdvEvent)
  connect : Except PyErr Bool
  enumServices : Except PyErr Unit
deriving Repr

structure DetailRun where
  trace : List TraceEv
  result : Except PyErr Unit
deriving Repr

-- get_device_info: outer try wraps the whole body with `except Exception`
-- (lines 86-87); the scan sleeps a literal 10 seconds (line 24); a device
-- not found returns early (lines 27-29); the connection section is
-- `async with BleakClient(address)` inside its own try/except Exception
-- (lines 60-84), so the context manager guarantees a disconnect on both the
-- normal and the raising exit out of the connected block, and only
-- KeyboardInterrupt escapes the two except clauses.
def get_device_info (address : String) (env : DetailEnv) : DetailRun :=
  match env.scan with
  | .error e =>
      if catchesException e then { trace := [], result := .ok () }
      else { trace := [], result := .error e }
  | .ok events =>
      let scanTrace : List TraceEv := [.scanStart, .sleep 10, .scanStop]
      match locate_device address events with
      | none => { trace := scanTrace, result := .ok () }
      | some _ =>
          match env.connect with
          | .error e =>
              if catchesException e then { trace := scanTrace, result := .ok () }
              else { trace := scanTrace, result := .error e }
          | .ok connected =>
              let connTrace :=
                scanTrace ++ [.clientConnect address, .clientDisconnect address]
              match (if connected then env.enumServices else .ok ()) with
              | .ok _ => { trace := connTrace, result := .ok () }
              | .error e =>
                  if catchesException e then { trace := connTrace, result := .ok () }
                  else { trace := connTrace, result := .error e }

-- ===== Argument parsing (ble_scanner.py lines 149-181) =====

inductive CliFlag
  | address (value : String)
  | scan_time (value : Int)
  | dbm_max (value : Int)
deriving Repr, DecidableEq

structure Args where
  address : Option String
  scan_time : Int
  dbm_max : Int
deriving Repr, DecidableEq

-- argparse defaults: address absent, scan_time 5, dbm_max -80.
def defaultArgs : Args := { address := none, scan_time := 5, dbm_max := -80 }

def flagKey : CliFlag → Nat
  | .address _ => 0
  | .scan_time _ => 1
  | .dbm_max _ => 2

def flagName : CliFlag → String
  | .address _ => "--address/-a"
  | .scan_time _ => "--scan-time/-t"
  | .dbm_max _ => "--dbm-max/-d"

def applyFlag (args : Args) : CliFlag → Args
  | .address v => { args with address := some v }
  | .scan_time v => { args with scan_time := v }
  | .dbm_max v => { args with dbm_max := v }

inductive ParseResult
  | ok (args : Args)
  | usageError (msg : String)
deriving Repr, DecidableEq

-- All three options are registered on one add_mutually_exclusive_group()
-- (lines 162-179): argparse records the last seen action of the group and
-- errors when a different member of the group appears.
def parseLoop : List CliFlag → Args → Option CliFlag → ParseResult
  | [], args, _ => .ok args
  | f :: rest, args, seen =>
      match seen with
      | some g =>
          if flagKey g ≠ flagKey f then
            .usageError ("argument " ++ flagName f ++ ": not allowed with argument " ++ flagName g)
          else parseLoop rest (applyFlag args f) (some f)
      | none => parseLoop rest (applyFlag args f) (some f)

def parse_args (tokens : List CliFlag) : ParseResult :=
  parseLoop tokens defaultArgs none

-- ===== main (ble_scanner.py lines 149-195) =====

-- Line 184 `if args.address:` tests Python truthiness: None and the empty
-- string are both falsy.
def addressTruthy : Option String → Bool
  | none => false
  | some s => !(s == "")

inductive Mode
  | detailMode
  | bulkMode
deriving Repr, DecidableEq

def mainMode (args : Args) : Mode :=
  if addressTruthy args.address then .detailMode else .bulkMode

structure Env where
  detail : DetailEnv
  bulkScan : Except PyErr (List AdvEvent)
deriving Repr

structure MainRun where
  exitCode : Nat
  trace : List TraceEv
  report : Option ScanReport
deriving Repr

-- Lines 183-195: falling off the end of main exits 0; except KeyboardInterrupt
-- calls sys.exit(0); except Exception calls sys.exit(1).
def exitCodeOf : Except PyErr Unit → Nat
  | .ok _ => 0
  | .error .keyboardInterrupt => 0
  | .error (.exception _) => 1

def runMain (args : Args) (env : Env) : MainRun :=
  if addressTruthy args.address then
    let r := get_device_info (args.address.getD "") env.detail
    { exitCode := exitCodeOf r.result, trace := r.trace, report := none }
  else
    let b := scan_ble_devices args.scan_time args.dbm_max env.bulkScan
    { exitCode := exitCodeOf b.result, trace := b.trace, report := b.report }

-- ===== disconnect_ble.py =====

structure BTCharacteristic where
  uuid : String
  properties : List String
deriving Repr, DecidableEq

structure BTService where
  uuid : String
  characteristics : List BTCharacteristic
deriving Repr, DecidableEq

-- Outcome of the `async with BleakClient(device.address)` block for one
-- device: either entering the context raised (no connection was opened), or
-- the block was entered (the context manager then guarantees the disconnect)
-- and the body completed or raised enumError.
inductive SessionOutcome
  | connectFail (cause : String)
  | session (connected : Bool) (services : List BTService) (enumError : Option String)
deriving Repr, DecidableEq

inductive DevReport
  | enumerated (address : String) (connected : Bool) (services : List BTService)
  | skipped (address : String) (cause : String)
deriving Repr, DecidableEq

-- Loop body for one device (disconnect_ble.py lines 17-38): the try/except
-- converts any Exception from connect or enumeration into a "Skipping" report
-- carrying the cause, and the loop moves on.
def process_device (d : BLEDevice) (out : SessionOutcome) : DevReport × List TraceEv :=
  match out with
  | .connectFail e => (.skipped d.address e, [])
  | .session connected services enumError =>
      let tr := [TraceEv.clientConnect d.address, TraceEv.clientDisconnect d.address]
      match enumError with
      | none => (.enumerated d.address connected services, tr)
      | some e => (.skipped d.address e, tr)

def scan_and_disconnect_devices :
    List (BLEDevice × SessionOutcome) → List DevReport × List TraceEv
  | [] => ([], [])
  | (d, out) :: rest =>
      ((process_device d out).1 :: (scan_and_disconnect_devices rest).1,
       (process_device d out).2 ++ (scan_and_disconnect_devices rest).2)

-- ===== Helper lemmas =====

theorem dictGet_dictInsert {α : Type} (k : String) (v : α) (m : List (String × α)) (a : String) :
    dictGet (dictInsert k v m) a = if a = k then some v else dictGet m a := by
  induction m with
  | nil =>
      by_cases h : a = k
      · subst h; simp [dictInsert, dictGet]
      · simp [dictInsert, dictGet, h, Ne.symm h]
  | cons p rest ih =>
      by_cases hp : p.1 = k
      · by_cases h : a = k
        · subst h; simp [dictInsert, dictGet, hp]
        · simp [dictInsert, dictGet, hp, h, Ne.symm h]
      · by_cases h : p.1 = a
        · have hak : ¬a = k := fun hh => hp (h.trans hh)
          simp [dictInsert, dictGet, hp, h, hak]
        · simp [dictInsert, dictGet, hp, h, ih]

theorem mem_filter_devices (m : DiscoveredDevices) (d : Int) (a : String) (r : DeviceRecord) :
    (a, r) ∈ filter_devices m d ↔ (a, r) ∈ m ∧ r.rssi > d := by
  simp [filter_devices, List.mem_filter]

theorem reportedDevices_scan_report (m : DiscoveredDevices) (d : Int) :
    reportedDevices (some (scan_report m d)) = filter_devices m d := by
  rw [scan_report]
  by_cases h1 : m.isEmpty
  · have hm : m = [] := by simpa using h1
    subst hm
    simp [reportedDevices, filter_devices]
  · simp only [h1, if_false]
    by_cases h2 : (filter_devices m d).isEmpty
    · have hf : filter_devices m d = [] := by simpa using h2
      simp [h2, reportedDevices, hf]
    · simp [h2, reportedDevices]

theorem scan_and_disconnect_reports_eq_map (devs : List (BLEDevice × SessionOutcome)) :
    (scan_and_disconnect_devices devs).1 =
      devs.map (fun p => (process_device p.1 p.2).1) := by
  induction devs with
  | nil => rfl
  | cons p rest ih => simp [scan_and_disconnect_devices, ih]

-- ===== Claim theorems =====

/-- C3: the filter step selects exactly the devices whose recorded RSSI is
strictly greater than the threshold; a device whose RSSI equals the threshold
is excluded (since equality contradicts strict inequality). -/
theorem C3_filter_strictly_above (m : DiscoveredDevices) (d : Int) (a : String)
    (r : DeviceRecord) :
    (a, r) ∈ filter_devices m d ↔ (a, r) ∈ m ∧ r.rssi > d :=
  mem_filter_devices m d a r

/-- C4: in the bulk connect-enumerate-disconnect pass, each device in the set
yields its own report, computed from that device alone, so a failure on one
device (connect or enumeration) is reported with its cause and never prevents
a later device from being processed: the report list is the pointwise map of
the per-device processing over the whole device list. -/
theorem C4_per_device_failure_isolated (devs : List (BLEDevice × SessionOutcome)) :
    (scan_and_disconnect_devices devs).1 =
      devs.map (fun p => (process_device p.1 p.2).1)
    ∧ (scan_and_disconnect_devices devs).1.length = devs.length
    ∧ (∀ d e, (process_device d (.connectFail e)).1 = DevReport.skipped d.address e)
    ∧ (∀ d c s e, (process_device d (.session c s (some e))).1 =
        DevReport.skipped d.address e) := by
  refine ⟨scan_and_disconnect_reports_eq_map devs, ?_, fun d e => rfl, fun d c s e => rfl⟩
  rw [scan_and_disconnect_reports_eq_map devs, List.length_map]

/-- C5: each advertisement event fully overwrites the stored record for its
identity, so the record stored for an address after the scan is exactly the
record built from the last event received for that address. -/
theorem C5_last_event_wins (events : List AdvEvent) (a : String) :
    dictGet (collect_events events) a =
      ((events.filter (fun ev => ev.1.address == a)).getLast?).map mkRecord := by
  induction events using List.reverseRecOn with
  | nil => rfl
  | append_singleton es e ih =>
      unfold collect_events
      rw [List.foldl_append]
      simp only [List.foldl_cons, List.foldl_nil, detection_callback]
      rw [dictGet_dictInsert, List.filter_append]
      by_cases h : e.1.address = a
      · rw [if_pos h.symm]
        have hf : List.filter (fun ev => ev.1.address == a) [e] = [e] := by simp [h]
        rw [hf, List.getLast?_concat]
        rfl
      · rw [if_neg (fun hh => h hh.symm)]
        have hf : List.filter (fun ev => ev.1.address == a) [e] = [] := by simp [h]
        rw [hf, List.append_nil]
        exact ih

-- ASCII case-mapping facts used for the case-insensitive locate (C7).

theorem char_toNat_ofNat_valid (n : Nat) (h : n.isValidChar) :
    (Char.ofNat n).toNat = n := by
  unfold Char.ofNat
  rw [dif_pos h]
  rfl

theorem toLower_def (c : Char) :
    c.toLower = if 65 ≤ c.toNat ∧ c.toNat ≤ 90 then Char.ofNat (c.toNat + 32) else c := rfl

theorem toUpper_def (c : Char) :
    c.toUpper = if 97 ≤ c.toNat ∧ c.toNat ≤ 122 then Char.ofNat (c.toNat - 32) else c := rfl

theorem char_lower_lower_eq_lower_upper (c : Char) :
    Char.toLower (Char.toLower c) = Char.toLower (Char.toUpper c) := by
  rw [toLower_def c, toUpper_def c]
  by_cases hU : 65 ≤ c.toNat ∧ c.toNat ≤ 90
  · rw [if_pos hU, if_neg (by omega : ¬(97 ≤ c.toNat ∧ c.toNat ≤ 122))]
    have ht : (Char.ofNat (c.toNat + 32)).toNat = c.toNat + 32 :=
      char_toNat_ofNat_valid _ (Or.inl (by omega))
    rw [toLower_def (Char.ofNat (c.toNat + 32)), ht,
      if_neg (by omega : ¬(65 ≤ c.toNat + 32 ∧ c.toNat + 32 ≤ 90)),
      toLower_def c, if_pos hU]
  · rw [if_neg hU]
    by_cases hL : 97 ≤ c.toNat ∧ c.toNat ≤ 122
    · rw [if_pos hL]
      have ht : (Char.ofNat (c.toNat - 32)).toNat = c.toNat - 32 :=
        char_toNat_ofNat_valid _ (Or.inl (by omega))
      rw [toLower_def (Char.ofNat (c.toNat - 32)), ht,
        if_pos (by omega : 65 ≤ c.toNat - 32 ∧ c.toNat - 32 ≤ 90),
        show c.toNat - 32 + 32 = c.toNat by omega, Char.ofNat_toNat,
        toLower_def c, if_neg hU]
    · rw [if_neg hL]

theorem py_lower_lower_eq_lower_upper (s : String) :
    py_lower (py_lower s) = py_lower (py_upper s) := by
  show (⟨(s.data.map Char.toLower).map Char.toLower⟩ : String) =
    ⟨(s.data.map Char.toUpper).map Char.toLower⟩
  rw [List.map_map, List.map_map]
  exact congrArg String.mk
    (List.map_congr_left fun c _ => char_lower_lower_eq_lower_upper c)

/-- C7: the single-device locator compares identities case-insensitively:
looking up the lower-cased form and the upper-cased form of an address against
the same event stream resolves to the same advertisement record (or both to
none). -/
theorem C7_locate_case_insensitive (events : List AdvEvent) (addr : String) :
    locate_device (py_lower addr) events = locate_device (py_upper addr) events := by
  unfold locate_device
  rw [py_lower_lower_eq_lower_upper addr]

-- Trace lemmas for the scoped-connection guarantee (C8).

theorem process_device_trace (d : BLEDevice) (out : SessionOutcome) :
    (process_device d out).2 = [] ∨
      (process_device d out).2 =
        [TraceEv.clientConnect d.address, TraceEv.clientDisconnect d.address] := by
  cases out with
  | connectFail e => exact Or.inl rfl
  | session c s en => cases en <;> exact Or.inr rfl

theorem foldl_openStep_bulk (devs : List (BLEDevice × SessionOutcome))
    (acc : List String) :
    List.foldl openStep acc (scan_and_disconnect_devices devs).2 = acc := by
  induction devs generalizing acc with
  | nil => rfl
  | cons p rest ih =>
      obtain ⟨d, out⟩ := p
      have hstep : List.foldl openStep acc (process_device d out).2 = acc := by
        rcases process_device_trace d out with h | h
        · simp [h]
        · rw [h]
          simp [openStep, List.erase_cons_head]
      simp only [scan_and_disconnect_devices, List.foldl_append, hstep]
      exact ih acc

theorem openConnections_get_device_info (addr : String) (env : DetailEnv) :
    openConnections (get_device_info addr env).trace = [] := by
  obtain ⟨scan, connect, enumSv⟩ := env
  unfold get_device_info
  cases scan with
  | error e => cases e <;> simp [catchesException, openConnections]
  | ok events =>
      cases hl : locate_device addr events with
      | none => simp [hl, openConnections, openStep]
      | some x =>
          cases connect with
          | error e => cases e <;> simp [hl, catchesException, openConnections, openStep]
          | ok connected =>
              cases connected with
              | false => simp [hl, openConnections, openStep, List.erase_cons_head]
              | true =>
                  cases enumSv with
                  | ok u => simp [hl, openConnections, openStep, List.erase_cons_head]
                  | error e =>
                      cases e <;>
                        simp [hl, catchesException, openConnections, openStep,
                          List.erase_cons_head]

/-- C8: once a connection has been opened, it is closed again on every exit
path (normal completion or an exception during enumeration): after any run of
the single-device detail flow and after any bulk connect-enumerate-disconnect
pass, no connection remains open in the trace. -/
theorem C8_connection_always_closed (addr : String) (env : DetailEnv)
    (devs : List (BLEDevice × SessionOutcome)) :
    openConnections (get_device_info addr env).trace = []
    ∧ openConnections (scan_and_disconnect_devices devs).2 = [] :=
  ⟨openConnections_get_device_info addr env, foldl_openStep_bulk devs []⟩

/-- C9: an empty string passed as the --address value is falsy in Python, so
the mode dispatch in main runs the bulk scan-and-report path (with the parsed
scan_time and dbm_max), not the single-device detail path. -/
theorem C9_empty_address_runs_bulk (t d : Int) (env : Env) :
    addressTruthy (some "") = false
    ∧ mainMode { address := some "", scan_time := t, dbm_max := d } = .bulkMode
    ∧ runMain { address := some "", scan_time := t, dbm_max := d } env =
        { exitCode := exitCodeOf (scan_ble_devices t d env.bulkScan).result
          trace := (scan_ble_devices t d env.bulkScan).trace
          report := (scan_ble_devices t d env.bulkScan).report } := by
  refine ⟨by decide, by simp [mainMode, addressTruthy], ?_⟩
  simp [runMain, addressTruthy]

/-- C10: the single-device detail mode always sleeps a literal 10 seconds for
its scan, independent of the scan_time argument; the configurable scan
duration is used only by the bulk mode. -/
theorem C10_detail_scan_fixed_ten (args : Args) (env : Env) :
    sleepsOf (runMain args env).trace =
      (if mainMode args = Mode.detailMode then
        (match env.detail.scan with
         | Except.ok _ => ([10] : List Int)
         | Except.error _ => [])
       else
        (match env.bulkScan with
         | Except.ok _ => [args.scan_time]
         | Except.error _ => [])) := by
  obtain ⟨⟨scan, connect, enumSv⟩, bulkScan⟩ := env
  unfold runMain mainMode
  cases ht : addressTruthy args.address with
  | false =>
      cases bulkScan with
      | error e => simp [ht, scan_ble_devices, sleepsOf]
      | ok events => simp [ht, scan_ble_devices, sleepsOf]
  | true =>
      unfold get_device_info
      cases scan with
      | error e => cases e <;> simp [ht, catchesException, sleepsOf]
      | ok events =>
          cases hl : locate_device (args.address.getD "") events with
          | none => simp [ht, hl, sleepsOf]
          | some x =>
              cases connect with
              | error e => cases e <;> simp [ht, hl, catchesException, sleepsOf]
              | ok connected =>
                  cases connected with
                  | false => simp [ht, hl, sleepsOf]
                  | true =>
                      cases enumSv with
                      | ok u => simp [ht, hl, sleepsOf]
                      | error e => cases e <;> simp [ht, hl, catchesException, sleepsOf]

/-- C2 (amended): the exit code is 1 exactly when the scan of bulk mode raises
an Exception (e.g. radio unavailable); the detail mode always exits 0 — its
top-level catch-all swallows radio failures and all per-device faults — and a
KeyboardInterrupt exits 0 in both modes. -/
theorem C2_exit_codes (args : Args) (env : Env) :
    (runMain args env).exitCode =
      (if mainMode args = Mode.bulkMode then
        (match env.bulkScan with
         | Except.error (PyErr.exception _) => 1
         | _ => 0)
       else 0) := by
  obtain ⟨⟨scan, connect, enumSv⟩, bulkScan⟩ := env
  unfold runMain mainMode
  cases ht : addressTruthy args.address with
  | false =>
      cases bulkScan with
      | error e => cases e <;> simp [ht, scan_ble_devices, exitCodeOf]
      | ok events => simp [ht, scan_ble_devices, exitCodeOf]
  | true =>
      unfold get_device_info
      cases scan with
      | error e => cases e <;> simp [ht, catchesException, exitCodeOf]
      | ok events =>
          cases hl : locate_device (args.address.getD "") events with
          | none => simp [ht, hl, exitCodeOf]
          | some x =>
              cases connect with
              | error e => cases e <;> simp [ht, hl, catchesException, exitCodeOf]
              | ok connected =>
                  cases connected with
                  | false => simp [ht, hl, exitCodeOf]
                  | true =>
                      cases enumSv with
                      | ok u => simp [ht, hl, exitCodeOf]
                      | error e => cases e <;> simp [ht, hl, catchesException, exitCodeOf]

/-- C2 counterexample: in single-device detail mode a radio-unavailable
failure is swallowed by the catch-all in get_device_info and the process exits
0, not 1 as the claim states for every invocation. -/
theorem C2_counterexample :
    (runMain { address := some "AA:BB:CC:DD:EE:FF", scan_time := 5, dbm_max := -80 }
      { detail := { scan := Except.error (PyErr.exception "BleakError: Bluetooth adapter off")
                    connect := Except.ok true
                    enumServices := Except.ok () }
        bulkScan := Except.ok [] }).exitCode = 0 := by
  rfl

theorem allFiltered_message_ne_noDevices (n : Nat) (d : Int) :
    report_message (ScanReport.allFiltered n d) ≠ report_message ScanReport.noDevices := by
  intro h
  have hl := congrArg String.length h
  simp only [report_message, String.length_append] at hl
  rw [show ("No BLE devices found with RSSI > ").length = 33 from rfl,
    show (" dBm (found ").length = 12 from rfl,
    show (" total, all filtered out).").length = 26 from rfl,
    show ("No BLE devices found.").length = 21 from rfl] at hl
  omega

/-- C6: the reporter distinguishes the empty-scan case ("no devices found")
from the case where devices were collected but all fell at or below the
threshold (reported with the total count found); the two messages differ. -/
theorem C6_two_empty_cases (m : DiscoveredDevices) (d : Int) (hne : m ≠ [])
    (hall : ∀ p ∈ m, ¬p.2.rssi > d) :
    scan_report [] d = ScanReport.noDevices
    ∧ scan_report m d = ScanReport.allFiltered m.length d
    ∧ report_message (ScanReport.allFiltered m.length d) ≠
        report_message ScanReport.noDevices := by
  refine ⟨rfl, ?_, allFiltered_message_ne_noDevices m.length d⟩
  rw [scan_report]
  rw [if_neg (by simpa using hne)]
  have hf : filter_devices m d = [] := by
    rw [filter_devices, List.filter_eq_nil_iff]
    intro p hp
    simpa using hall p hp
  simp [hf]

-- Concrete data for witnesses.

def devW : BLEDevice := { address := "aa:bb", name := some "TagOne" }

def advW : AdvertisementData :=
  { rssi := -80, local_name := some "TagOne", tx_power := none,
    service_uuids := [], manufacturer_data := [], service_data := [] }

/-- C6 witness: a one-device set whose RSSI equals the -80 threshold is
reported as all-filtered with total 1, distinguishably from the empty-scan
message. -/
theorem C6_witness :
    ([("aa:bb", mkRecord (devW, advW))] : DiscoveredDevices) ≠ []
    ∧ (∀ p ∈ ([("aa:bb", mkRecord (devW, advW))] : DiscoveredDevices), ¬p.2.rssi > -80)
    ∧ scan_report [] (-80) = ScanReport.noDevices
    ∧ scan_report [("aa:bb", mkRecord (devW, advW))] (-80) =
        ScanReport.allFiltered 1 (-80)
    ∧ report_message (ScanReport.allFiltered 1 (-80)) ≠
        report_message ScanReport.noDevices := by
  have h := C6_two_empty_cases [("aa:bb", mkRecord (devW, advW))] (-80)
    (by simp) (by decide)
  exact ⟨by simp, by decide, h.1, h.2.1, h.2.2⟩

/-- C1 counterexample: --scan-time and --dbm-max sit in the same argparse
mutually exclusive group, so supplying both in one command line is rejected
with a usage error instead of both taking effect. -/
theorem C1_counterexample :
    parse_args [CliFlag.scan_time 10, CliFlag.dbm_max (-70)] =
      ParseResult.usageError
        "argument --dbm-max/-d: not allowed with argument --scan-time/-t" := by
  rfl

/-- C1 (amended): each of --scan-time (default 5) and --dbm-max (default -80)
takes effect when supplied on its own — the scan sleeps for the given number
of seconds and the report contains exactly the devices strictly above the
threshold — and only a non-empty --address switches to the single-device
detail mode; but the two bulk flags cannot be combined in one command line,
since all three flags are declared mutually exclusive. -/
theorem C1_flags_individually (t d : Int) (env : Env) (events : List AdvEvent)
    (hscan : env.bulkScan = Except.ok events) (addr : String) (haddr : addr ≠ "") :
    parse_args [] = ParseResult.ok defaultArgs
    ∧ parse_args [CliFlag.scan_time t] =
        ParseResult.ok { address := none, scan_time := t, dbm_max := -80 }
    ∧ parse_args [CliFlag.dbm_max d] =
        ParseResult.ok { address := none, scan_time := 5, dbm_max := d }
    ∧ mainMode { address := none, scan_time := t, dbm_max := d } = Mode.bulkMode
    ∧ sleepsOf (runMain { address := none, scan_time := t, dbm_max := d } env).trace = [t]
    ∧ (∀ a r, (a, r) ∈ reportedDevices
          (runMain { address := none, scan_time := t, dbm_max := d } env).report ↔
        (a, r) ∈ collect_events events ∧ r.rssi > d)
    ∧ mainMode { address := some addr, scan_time := t, dbm_max := d } = Mode.detailMode := by
  have hrep : (runMain { address := none, scan_time := t, dbm_max := d } env).report =
      some (scan_report (collect_events events) d) := by
    simp [runMain, addressTruthy, hscan, scan_ble_devices]
  refine ⟨rfl, rfl, rfl, rfl, ?_, ?_, ?_⟩
  · simp [runMain, addressTruthy, hscan, scan_ble_devices, sleepsOf]
  · intro a r
    rw [hrep, reportedDevices_scan_report]
    exact mem_filter_devices _ _ _ _
  · simp [mainMode, addressTruthy, haddr]

def advW2 : AdvertisementData :=
  { rssi := -50, local_name := none, tx_power := none,
    service_uuids := [], manufacturer_data := [], service_data := [] }

def devW2 : BLEDevice := { address := "cc:dd", name := none }

def envW : Env :=
  { detail := { scan := Except.ok [], connect := Except.ok true,
                enumServices := Except.ok () }
    bulkScan := Except.ok [(devW2, advW2)] }

/-- C1 witness: with scan_time 7 and dbm_max -60 (each parseable on its own),
the bulk run sleeps 7 seconds and reports the -50 dBm device, which is
strictly above the threshold. -/
theorem C1_witness :
    envW.bulkScan = Except.ok [(devW2, advW2)]
    ∧ ("CC:DD:EE" : String) ≠ ""
    ∧ parse_args [CliFlag.scan_time 7] =
        ParseResult.ok { address := none, scan_time := 7, dbm_max := -80 }
    ∧ parse_args [CliFlag.dbm_max (-60)] =
        ParseResult.ok { address := none, scan_time := 5, dbm_max := -60 }
    ∧ sleepsOf (runMain { address := none, scan_time := 7, dbm_max := -60 } envW).trace = [7]
    ∧ (("cc:dd", mkRecord (devW2, advW2)) ∈ reportedDevices
          (runMain { address := none, scan_time := 7, dbm_max := -60 } envW).report ↔
        ("cc:dd", mkRecord (devW2, advW2)) ∈ collect_events [(devW2, advW2)]
          ∧ (mkRecord (devW2, advW2)).rssi > -60)
    ∧ mainMode { address := some "CC:DD:EE", scan_time := 7, dbm_max := -60 } =
        Mode.detailMode := by
  have h := C1_flags_individually 7 (-60) envW [(devW2, advW2)] rfl "CC:DD:EE" (by decide)
  exact ⟨rfl, by decide, h.2.1, h.2.2.1, h.2.2.2.2.1,
    h.2.2.2.2.2.1 "cc:dd" (mkRecord (devW2, advW2)), h.2.2.2.2.2.2⟩

end BleTooling
